import Mathlib

/-!
Shallow embedding of the pixijs/performance-benchmark-action core:
the regression comparator, the sampling aggregation, the report/PR-comment
driver tail and the page teardown control flow, translated from the
orchestrator sources (the fixed-threshold index-join variant, the grouped
dev-vs-local variant and the FPS-scaled averaged-repeats variant).

JavaScript numbers are modelled as exact rationals extended with NaN and
the two infinities; the arithmetic operations used by the comparator
(subtraction, division, multiplication, Math.max, the strict greater-than
comparison) follow the JS semantics on those values.  There is no signed
zero in this model; none of the compared code paths distinguish 0 from -0.
-/

namespace Bench

/-- A JavaScript number as used by the comparator: NaN, +Infinity,
-Infinity, or a finite value modelled as an exact rational. -/
inductive JsNum where
  | nan   : JsNum
  | inf   : JsNum
  | ninf  : JsNum
  | num   : ℚ → JsNum
deriving DecidableEq, Repr

/-- JS subtraction `a - b` on the model. -/
def jsub : JsNum → JsNum → JsNum
  | .nan, _ => .nan
  | _, .nan => .nan
  | .inf, .inf => .nan
  | .inf, _ => .inf
  | .ninf, .ninf => .nan
  | .ninf, _ => .ninf
  | .num _, .inf => .ninf
  | .num _, .ninf => .inf
  | .num a, .num b => .num (a - b)

/-- JS multiplication `a * b` on the model. -/
def jmul : JsNum → JsNum → JsNum
  | .nan, _ => .nan
  | _, .nan => .nan
  | .num a, .num b => .num (a * b)
  | .inf, .num b => if b = 0 then .nan else if b < 0 then .ninf else .inf
  | .ninf, .num b => if b = 0 then .nan else if b < 0 then .inf else .ninf
  | .num a, .inf => if a = 0 then .nan else if a < 0 then .ninf else .inf
  | .num a, .ninf => if a = 0 then .nan else if a < 0 then .inf else .ninf
  | .inf, .inf => .inf
  | .inf, .ninf => .ninf
  | .ninf, .inf => .ninf
  | .ninf, .ninf => .inf

/-- JS division `a / b` on the model (division of a nonzero finite value
by zero yields a signed infinity, `0 / 0` yields NaN). -/
def jdiv : JsNum → JsNum → JsNum
  | .nan, _ => .nan
  | _, .nan => .nan
  | .num a, .num b =>
      if b = 0 then
        if a = 0 then .nan else if a < 0 then .ninf else .inf
      else .num (a / b)
  | .inf, .num b => if b < 0 then .ninf else .inf
  | .ninf, .num b => if b < 0 then .inf else .ninf
  | .num _, .inf => .num 0
  | .num _, .ninf => .num 0
  | .inf, .inf => .nan
  | .inf, .ninf => .nan
  | .ninf, .inf => .nan
  | .ninf, .ninf => .nan

/-- JS `Math.max(a, b)`: NaN if either argument is NaN. -/
def jmax : JsNum → JsNum → JsNum
  | .nan, _ => .nan
  | _, .nan => .nan
  | .num a, .num b => .num (max a b)
  | .inf, _ => .inf
  | _, .inf => .inf
  | .ninf, b => b
  | a, .ninf => a

/-- JS strict comparison `a > b`: false whenever either side is NaN. -/
def jgt : JsNum → JsNum → Bool
  | .nan, _ => false
  | _, .nan => false
  | .num a, .num b => decide (b < a)
  | .inf, .inf => false
  | .inf, _ => true
  | .ninf, _ => false
  | .num _, .inf => false
  | .num _, .ninf => true

theorem jsub_nan_left (x : JsNum) : jsub JsNum.nan x = JsNum.nan := by
  cases x <;> rfl

theorem jsub_nan_right (x : JsNum) : jsub x JsNum.nan = JsNum.nan := by
  cases x <;> rfl

theorem jmul_nan_left (x : JsNum) : jmul JsNum.nan x = JsNum.nan := by
  cases x <;> rfl

theorem jmul_nan_right (x : JsNum) : jmul x JsNum.nan = JsNum.nan := by
  cases x <;> rfl

theorem jdiv_nan_left (x : JsNum) : jdiv JsNum.nan x = JsNum.nan := by
  cases x <;> rfl

theorem jdiv_nan_right (x : JsNum) : jdiv x JsNum.nan = JsNum.nan := by
  cases x <;> rfl

theorem jgt_nan_right (x : JsNum) : jgt x JsNum.nan = false := by
  cases x <;> rfl

theorem jgt_nan_left (x : JsNum) : jgt JsNum.nan x = false := by
  cases x <;> rfl

/-- One benchmark result payload as read back from a page (one element of
`prResults` or of the parsed baseline JSON array): a `name` and an `fps`
field.  `fps = none` models a payload whose `fps` field is absent or
non-numeric, so that converting it with `Number(...)` yields NaN. -/
structure RawResult where
  name : String
  fps  : Option ℚ
deriving DecidableEq, Repr

/-- JS `Number(...)` applied to an optional numeric field: an absent or
non-numeric value converts to NaN, a numeric value to itself. -/
def toNum : Option ℚ → JsNum
  | none => JsNum.nan
  | some q => JsNum.num q

/-- `((devFPS - prFPS) / devFPS) * 100`, the percent difference computed by
every comparator variant (positive when the candidate has fewer FPS). -/
def diffPercent (devFPS prFPS : JsNum) : JsNum :=
  jmul (jdiv (jsub devFPS prFPS) devFPS) (JsNum.num 100)

/-- The trend glyph in the comparison table: `down` renders the
red-triangle-down arrow, `up` the red-triangle-up arrow. -/
inductive Arrow where
  | down : Arrow
  | up   : Arrow
deriving DecidableEq, Repr

/-- The arrow ternary used by every comparator variant:
`diffPercent > 0 ? down : up`. -/
def arrowOf (d : JsNum) : Arrow :=
  if jgt d (JsNum.num 0) then Arrow.down else Arrow.up

/-- One row of the fixed-threshold comparator's table (the index-join
orchestrator variant): `devFPS`, `diffPercent` and `arrow` are `none`
exactly when the baseline entry at this index was missing. -/
structure TableRow where
  name        : String
  devFPS      : Option JsNum
  prFPS       : JsNum
  diff        : Option JsNum
  regression  : Bool
  arrow       : Option Arrow
deriving DecidableEq, Repr

/-- The body of the comparison loop of the fixed-threshold index-join
variant, for one index `i`: `prResult` is the candidate payload and
`baselineResult` the baseline entry at the same index (`none` when
`baseline[i]` is absent, which the source detects with
`if (!baselineResult)`). -/
def mkRow (perfChange : JsNum) (prResult : RawResult)
    (baselineResult : Option RawResult) : TableRow :=
  match baselineResult with
  | none =>
      { name := prResult.name
        devFPS := none
        prFPS := toNum prResult.fps
        diff := none
        regression := false
        arrow := none }
  | some b =>
      let devFPS := toNum b.fps
      let prFPS := toNum prResult.fps
      let d := diffPercent devFPS prFPS
      { name := prResult.name
        devFPS := some devFPS
        prFPS := prFPS
        diff := some d
        regression := jgt d perfChange
        arrow := some (arrowOf d) }

/-- The whole comparison loop of the fixed-threshold index-join variant:
it walks the candidate results by index and pairs each with the baseline
entry at the same index, which is absent once the baseline array runs out. -/
def buildTableRows (perfChange : JsNum) :
    List RawResult → List RawResult → List TableRow
  | [], _ => []
  | pr :: prs, [] =>
      mkRow perfChange pr none :: buildTableRows perfChange prs []
  | pr :: prs, b :: bs =>
      mkRow perfChange pr (some b) :: buildTableRows perfChange prs bs

/-- `regressionDetected`: the OR over the rows' regression flags, as
accumulated while the comment body is built. -/
def regressionDetected (rows : List TableRow) : Bool :=
  rows.any fun r => r.regression

/-- One row of the grouped dev-vs-local comparator (the by-name join
variant): a side is `none` when no result with that variant was grouped
under this benchmark name. -/
structure GroupedRow where
  name       : String
  devFPS     : Option JsNum
  localFPS   : Option JsNum
  diff       : Option JsNum
  regression : Bool
  arrow      : Option Arrow
deriving DecidableEq, Repr

/-- The body of the grouped comparator's loop for one benchmark name: the
source skips the computation when `devFPS == null || localFPS == null`. -/
def mkGroupedRow (perfChange : JsNum) (name : String)
    (devFPS localFPS : Option JsNum) : GroupedRow :=
  match devFPS, localFPS with
  | some dev, some loc =>
      let d := diffPercent dev loc
      { name := name
        devFPS := some dev
        localFPS := some loc
        diff := some d
        regression := jgt d perfChange
        arrow := some (arrowOf d) }
  | dv, lc =>
      { name := name
        devFPS := dv
        localFPS := lc
        diff := none
        regression := false
        arrow := none }

/-- The grouped comparator over the whole grouped map, one entry per
benchmark name with its optional dev and local FPS values. -/
def groupedRows (perfChange : JsNum)
    (entries : List (String × Option JsNum × Option JsNum)) : List GroupedRow :=
  entries.map fun e => mkGroupedRow perfChange e.1 e.2.1 e.2.2

/-- `Math.max(devResult.avg, 1)` of the FPS-scaled variant: guards the
denominator of the tolerance scale. -/
def effectiveDevFps (devAvg : JsNum) : JsNum :=
  jmax devAvg (JsNum.num 1)

/-- `perfChange * (60 / effectiveDevFps)` of the FPS-scaled variant: the
allowed percent difference, widening as the baseline FPS drops below 60. -/
def allowedPercent (perfChange devAvg : JsNum) : JsNum :=
  jmul perfChange (jdiv (JsNum.num 60) (effectiveDevFps devAvg))

/-- `regression = diffPercent > allowedPercent` of the FPS-scaled variant. -/
def scaledRegression (perfChange devAvg localAvg : JsNum) : Bool :=
  jgt (diffPercent devAvg localAvg) (allowedPercent perfChange devAvg)

/-- `sampleFPS.reduce((a, b) => a + b, 0) / sampleFPS.length`: the mean of
the collected samples, as computed by `runIsolatedBenchmark`. -/
def sampleAvg (sampleFPS : List ℚ) : ℚ :=
  sampleFPS.foldl (· + ·) 0 / sampleFPS.length

/-- The radicand of the stddev of `runIsolatedBenchmark`:
`sampleFPS.reduce((s, n) => s + (n - avg) ** 2, 0) / sampleFPS.length`.
The code's stddev is the real square root of this value, so stating facts
about this quantity states them about the stddev up to that bijection on
nonnegatives. -/
def stddevSq (sampleFPS : List ℚ) : ℚ :=
  sampleFPS.foldl (fun s n => s + (n - sampleAvg sampleFPS) ^ 2) 0
    / sampleFPS.length

/-- The spec-side average of a sample sequence (`mean = average(samples)`),
written independently of the code's reduce loop, for refinement. -/
def specAverage (samples : List ℚ) : ℚ :=
  samples.sum / samples.length

/-- The spec-side population variance (divide by N, not N-1), written
independently of the code's reduce loop, for refinement.  The population
standard deviation is its square root. -/
def specPopVariance (samples : List ℚ) : ℚ :=
  ((samples.map fun x => (x - specAverage samples) ^ 2).sum) / samples.length

/-- The final outcome of one invocation of the action: success, or failure
with the message passed to `core.setFailed`. -/
inductive Outcome where
  | success : Outcome
  | failed  : String → Outcome
deriving DecidableEq, Repr

/-- The tail of the orchestrator after the comparison rows are built:
when a token and a pull-request context are present (`shouldPost`), the
comment-sink interaction (list, then update-or-create) runs with no local
error handling, so a thrown sink error reaches the enclosing top-level
catch, which calls `core.setFailed(err.message)` and skips the verdict;
otherwise the verdict block marks the run failed exactly when
`regressionDetected` is set. -/
def finishRun (regressed : Bool) (shouldPost : Bool)
    (sink : Except String Unit) : Outcome :=
  match (if shouldPost then sink else Except.ok ()) with
  | .error e => Outcome.failed e
  | .ok _ =>
      if regressed then Outcome.failed "Performance regression detected"
      else Outcome.success

/-- The failure reasons a sandbox execution can raise: a navigation
failure from `page.goto`, or a timeout from `page.waitForFunction`. -/
inductive SandboxError where
  | navigationFailed : SandboxError
  | timeout          : SandboxError
deriving DecidableEq, Repr

/-- Observable state of one page/browsing-context: whether navigation
happened and whether `page.close()` has run. -/
structure PageState where
  navigated : Bool
  disposed  : Bool
deriving DecidableEq, Repr

/-- Initial state of a freshly opened page. -/
def freshPage : PageState :=
  { navigated := false, disposed := false }

/-- JS `try { body } finally { fin }` when the finalizer itself does not
throw: the finalizer runs on the state no matter how the body exited, and
the body's result (value or error) is then propagated. -/
def tryFinally {ε α σ : Type} (body : σ → Except ε α × σ) (fin : σ → σ)
    (s : σ) : Except ε α × σ :=
  let r := body s
  (r.1, fin r.2)

/-- The per-page work of one benchmark execution: navigate, then wait for
the `window.benchmarkResult` signal and read its fps back.  Each step's
outcome is a parameter of the model (the environment decides whether
navigation or the wait fails). -/
def pageBody (nav : Except SandboxError Unit) (wait : Except SandboxError ℚ)
    (s : PageState) : Except SandboxError ℚ × PageState :=
  match nav with
  | .error e => (Except.error e, s)
  | .ok _ =>
      let s1 := { s with navigated := true }
      match wait with
      | .error e => (Except.error e, s1)
      | .ok v => (Except.ok v, s1)

/-- `page.close()`. -/
def closePage (s : PageState) : PageState :=
  { s with disposed := true }

/-- One page execution in the orchestrator variants that wrap the body in
`try ... finally { await page.close() }`. -/
def runPageGuarded (nav : Except SandboxError Unit)
    (wait : Except SandboxError ℚ) : Except SandboxError ℚ × PageState :=
  tryFinally (pageBody nav wait) closePage freshPage

/-- One page execution in the orchestrator variant without the per-page
try/finally: `await page.close()` is the last statement of the success
path only, and an error propagates to the enclosing top-level catch with
the page still open (that catch's `finally` closes only the server). -/
def runPageUnguarded (nav : Except SandboxError Unit)
    (wait : Except SandboxError ℚ) : Except SandboxError ℚ × PageState :=
  match pageBody nav wait freshPage with
  | (Except.ok v, s) => (Except.ok v, closePage s)
  | (Except.error e, s) => (Except.error e, s)

/-- C1: for every scenario present in both result sets the comparator
computes `diffPercent = (baseline - candidate) / baseline * 100`; for a
positive baseline mean, a positive diffPercent is equivalent to the
candidate being slower (fewer FPS) than the baseline; and at baseline
mean 60, candidate mean 54, the diffPercent is 10, which with the fixed
threshold 5 gives `regression = true` and the Down trend arrow. -/
theorem c1_diff_sign_and_fixed_threshold :
    (∀ (perfChange : JsNum) (pr b : RawResult),
        (mkRow perfChange pr (some b)).diff
          = some (jmul (jdiv (jsub (toNum b.fps) (toNum pr.fps))
              (toNum b.fps)) (JsNum.num 100)))
    ∧ (∀ dev cand : ℚ, 0 < dev →
        (jgt (diffPercent (JsNum.num dev) (JsNum.num cand))
            (JsNum.num 0) = true ↔ cand < dev))
    ∧ diffPercent (JsNum.num 60) (JsNum.num 54) = JsNum.num 10
    ∧ (mkRow (JsNum.num 5) ⟨"sprite", some 54⟩
        (some ⟨"sprite", some 60⟩)).regression = true
    ∧ (mkRow (JsNum.num 5) ⟨"sprite", some 54⟩
        (some ⟨"sprite", some 60⟩)).arrow = some Arrow.down := by
  refine ⟨fun perfChange pr b => rfl, fun dev cand hdev => ?_, ?_, ?_, ?_⟩
  · simp only [diffPercent, jsub, jdiv, jmul, jgt, if_neg (ne_of_gt hdev),
      decide_eq_true_eq]
    rw [show (dev - cand) / dev * 100 = (dev - cand) * 100 / dev from by ring,
      lt_div_iff₀ hdev]
    constructor
    · intro h; nlinarith
    · intro h; nlinarith
  · norm_num [diffPercent, jsub, jdiv, jmul]
  · norm_num [mkRow, toNum, diffPercent, jsub, jdiv, jmul, jgt]
  · norm_num [mkRow, toNum, diffPercent, jsub, jdiv, jmul, jgt, arrowOf]

/-- Witness for C1 at the concrete input of its spec sentence: baseline
mean 60, candidate mean 54, so the diffPercent is positive and candidate
54 is indeed below baseline 60. -/
theorem c1_witness :
    jgt (diffPercent (JsNum.num 60) (JsNum.num 54)) (JsNum.num 0) = true :=
  (c1_diff_sign_and_fixed_threshold.2.1 60 54 (by norm_num)).mpr (by norm_num)

theorem max_ne_zero_of_one_le {q : ℚ} : max q 1 ≠ 0 :=
  ne_of_gt (lt_of_lt_of_le one_pos (le_max_right q 1))

/-- C2: under the FPS-scaled tolerance policy the allowed difference is
`perfChange * (60 / max(baseline.mean, 1))` and a scenario is regressed
exactly when its diffPercent exceeds it; the floor of 1 keeps the
denominator at least 1, so the scale never divides by zero and stays
finite; and at baseline mean 30 with fixedPercent 5 the allowance is 10,
making diffPercent 8 (local mean 27.6) not regressed and diffPercent 12
(local mean 26.4) regressed. -/
theorem c2_fps_scaled_tolerance :
    (∀ perfChange devAvg localAvg : JsNum,
        scaledRegression perfChange devAvg localAvg
          = jgt (diffPercent devAvg localAvg)
              (allowedPercent perfChange devAvg))
    ∧ (∀ q : ℚ, effectiveDevFps (JsNum.num q) = JsNum.num (max q 1)
        ∧ (1 : ℚ) ≤ max q 1
        ∧ ∃ r : ℚ, jdiv (JsNum.num 60) (effectiveDevFps (JsNum.num q))
            = JsNum.num r)
    ∧ (∀ p q : ℚ, allowedPercent (JsNum.num p) (JsNum.num q)
        = JsNum.num (p * (60 / max q 1)))
    ∧ allowedPercent (JsNum.num 5) (JsNum.num 30) = JsNum.num 10
    ∧ diffPercent (JsNum.num 30) (JsNum.num (138 / 5)) = JsNum.num 8
    ∧ scaledRegression (JsNum.num 5) (JsNum.num 30)
        (JsNum.num (138 / 5)) = false
    ∧ diffPercent (JsNum.num 30) (JsNum.num (132 / 5)) = JsNum.num 12
    ∧ scaledRegression (JsNum.num 5) (JsNum.num 30)
        (JsNum.num (132 / 5)) = true := by
  have hmax : ∀ q : ℚ, max q 1 ≠ 0 := fun q => max_ne_zero_of_one_le
  have h30 : max (30 : ℚ) 1 = 30 := max_eq_left (by norm_num)
  refine ⟨fun perfChange devAvg localAvg => rfl, ?_, ?_, ?_, ?_, ?_, ?_, ?_⟩
  · intro q
    refine ⟨rfl, le_max_right q 1, 60 / max q 1, ?_⟩
    simp [jdiv, effectiveDevFps, jmax, hmax q]
  · intro p q
    simp [allowedPercent, effectiveDevFps, jmax, jdiv, jmul, hmax q]
  · simp [allowedPercent, effectiveDevFps, jmax, jdiv, jmul, h30]
    norm_num
  · norm_num [diffPercent, jsub, jdiv, jmul]
  · norm_num [scaledRegression, diffPercent, allowedPercent, effectiveDevFps,
      jmax, jsub, jdiv, jmul, jgt, h30]
  · norm_num [diffPercent, jsub, jdiv, jmul]
  · norm_num [scaledRegression, diffPercent, allowedPercent, effectiveDevFps,
      jmax, jsub, jdiv, jmul, jgt, h30]

theorem foldl_sum_eq (l : List ℚ) : ∀ a : ℚ, l.foldl (· + ·) a = a + l.sum := by
  induction l with
  | nil => intro a; simp
  | cons x xs ih => intro a; simp [ih, add_assoc]

theorem foldl_add_map_eq (f : ℚ → ℚ) (l : List ℚ) :
    ∀ a : ℚ, l.foldl (fun s n => s + f n) a = a + (l.map f).sum := by
  induction l with
  | nil => intro a; simp
  | cons x xs ih => intro a; simp [ih, add_assoc]

/-- C3: the aggregation of `runIsolatedBenchmark` computes the mean as the
average of the samples and its stddev as the population standard
deviation (the radicand divides by N, not N-1); for samples
`[58, 60, 62]` the mean is 60 and the squared stddev is `8/3` (so the
stddev is `sqrt(8/3)`); and a single sample always gives a squared
stddev of 0, hence stddev 0. -/
theorem c3_aggregation :
    (∀ samples : List ℚ, sampleAvg samples = specAverage samples)
    ∧ (∀ samples : List ℚ, stddevSq samples = specPopVariance samples)
    ∧ sampleAvg [58, 60, 62] = 60
    ∧ stddevSq [58, 60, 62] = 8 / 3
    ∧ (∀ x : ℚ, stddevSq [x] = 0) := by
  have havg : ∀ samples : List ℚ, sampleAvg samples = specAverage samples := by
    intro l
    unfold sampleAvg specAverage
    rw [foldl_sum_eq l 0, zero_add]
  have h362 : sampleAvg [58, 60, 62] = 60 := by
    norm_num [sampleAvg]
  refine ⟨havg, ?_, h362, ?_, ?_⟩
  · intro l
    unfold stddevSq specPopVariance
    rw [foldl_add_map_eq (fun n => (n - sampleAvg l) ^ 2) l 0, zero_add, havg l]
  · simp only [stddevSq, h362]
    norm_num
  · intro x
    have h : sampleAvg [x] = x := by simp [sampleAvg]
    simp [stddevSq, h]

/-- C4 counterexample: in the orchestrator variant without a per-page
try/finally, a timeout while waiting for the completion signal propagates
with the page still undisposed — the disposed state is false when the
error leaves the execution, refuting the claim that every sandbox
execution disposes the page on every exit path. -/
theorem c4_counterexample :
    (runPageUnguarded (Except.ok ())
        (Except.error SandboxError.timeout)).1
      = Except.error SandboxError.timeout
    ∧ (runPageUnguarded (Except.ok ())
        (Except.error SandboxError.timeout)).2.disposed = false := by
  exact ⟨rfl, rfl⟩

/-- C4 amended: in the orchestrator variants whose per-page body is
wrapped in `try ... finally { await page.close() }`, the page is disposed
on every exit path — navigation failure, wait timeout, or success — and
the body's result (in particular a thrown error) is propagated unchanged
after the disposal; the variant without the per-page try/finally closes
the page only on the success path. -/
theorem c4_guarded_page_always_disposed :
    ∀ (nav : Except SandboxError Unit) (wait : Except SandboxError ℚ),
      (runPageGuarded nav wait).2.disposed = true
      ∧ (runPageGuarded nav wait).1 = (pageBody nav wait freshPage).1
      ∧ (runPageUnguarded nav wait).2.disposed
          = (pageBody nav wait freshPage).1.toBool := by
  intro nav wait
  cases nav with
  | error e => exact ⟨rfl, rfl, rfl⟩
  | ok u =>
      cases wait with
      | error e => exact ⟨rfl, rfl, rfl⟩
      | ok v => exact ⟨rfl, rfl, rfl⟩

/-- C5 counterexample: with no regression detected by the comparator, a
failure of the comment-sink interaction (for instance while listing the
existing comments) changes the invocation's outcome from success to
failure with the sink error's message — the pass/fail outcome is not
driven solely by the comparator's verdict. -/
theorem c5_counterexample :
    finishRun false true (Except.error "listComments failed")
      = Outcome.failed "listComments failed"
    ∧ finishRun false true (Except.ok ()) = Outcome.success
    ∧ finishRun false true (Except.error "listComments failed")
        ≠ finishRun false true (Except.ok ()) := by
  refine ⟨rfl, rfl, ?_⟩
  simp [finishRun]

/-- C5 amended: a failure while listing, creating, or updating the
external review comment is not handled locally; it propagates to the
top-level catch, which fails the invocation with the sink error's
message, pre-empting the comparator's verdict.  Only when the sink
interaction succeeds, or is skipped for lack of a token or pull-request
context, is the pass/fail outcome determined by the comparator's
verdict. -/
theorem c5_sink_failure_preempts_verdict :
    (∀ (regressed : Bool) (e : String),
        finishRun regressed true (Except.error e) = Outcome.failed e)
    ∧ (∀ regressed : Bool,
        finishRun regressed true (Except.ok ())
          = if regressed then Outcome.failed "Performance regression detected"
            else Outcome.success)
    ∧ (∀ (regressed : Bool) (sink : Except String Unit),
        finishRun regressed false sink
          = if regressed then Outcome.failed "Performance regression detected"
            else Outcome.success) := by
  exact ⟨fun regressed e => rfl, fun regressed => rfl,
    fun regressed sink => rfl⟩

/-- C6 counterexample: a row whose diffPercent is exactly zero (baseline
and candidate fps both 60) carries the Up trend arrow, not an absent
trend — the arrow ternary `diffPercent > 0 ? down : up` never yields None
once a diffPercent is computed. -/
theorem c6_counterexample :
    (mkRow (JsNum.num 5) ⟨"sprite", some 60⟩
        (some ⟨"sprite", some 60⟩)).diff = some (JsNum.num 0)
    ∧ (mkRow (JsNum.num 5) ⟨"sprite", some 60⟩
        (some ⟨"sprite", some 60⟩)).arrow = some Arrow.up
    ∧ (mkRow (JsNum.num 5) ⟨"sprite", some 60⟩
        (some ⟨"sprite", some 60⟩)).arrow ≠ none := by
  have h2 : (mkRow (JsNum.num 5) ⟨"sprite", some 60⟩
      (some ⟨"sprite", some 60⟩)).arrow = some Arrow.up := by
    norm_num [mkRow, toNum, diffPercent, jsub, jdiv, jmul, jgt, arrowOf]
  refine ⟨?_, h2, ?_⟩
  · norm_num [mkRow, toNum, diffPercent, jsub, jdiv, jmul]
  · rw [h2]
    exact Option.some_ne_none _

/-- C6 amended: the trend arrow is Down exactly when the computed
diffPercent is greater than 0, and Up in every other computed case —
negative, exactly zero, or NaN; it is absent (None) exactly when no
diffPercent was computed because one side of the comparison is missing. -/
theorem c6_trend_arrow :
    (∀ (perfChange : JsNum) (pr b : RawResult),
        (mkRow perfChange pr (some b)).arrow
          = some (arrowOf (diffPercent (toNum b.fps) (toNum pr.fps))))
    ∧ (∀ d : JsNum, arrowOf d = Arrow.down ↔ jgt d (JsNum.num 0) = true)
    ∧ (∀ d : JsNum, arrowOf d = Arrow.up ↔ jgt d (JsNum.num 0) = false)
    ∧ (∀ (perfChange : JsNum) (pr : RawResult),
        (mkRow perfChange pr none).arrow = none)
    ∧ (∀ (perfChange : JsNum) (name : String) (localFPS : Option JsNum),
        (mkGroupedRow perfChange name none localFPS).arrow = none)
    ∧ (∀ (perfChange : JsNum) (name : String) (dev : JsNum),
        (mkGroupedRow perfChange name (some dev) none).arrow = none)
    ∧ arrowOf (JsNum.num 10) = Arrow.down
    ∧ arrowOf (JsNum.num 0) = Arrow.up
    ∧ arrowOf (JsNum.num (-3)) = Arrow.up
    ∧ arrowOf JsNum.nan = Arrow.up := by
  refine ⟨fun perfChange pr b => rfl, ?_, ?_, fun perfChange pr => rfl,
    ?_, fun perfChange name dev => rfl, ?_, ?_, ?_, rfl⟩
  · intro d
    cases h : jgt d (JsNum.num 0) <;> simp [arrowOf, h]
  · intro d
    cases h : jgt d (JsNum.num 0) <;> simp [arrowOf, h]
  · intro perfChange name localFPS
    cases localFPS <;> rfl
  · norm_num [arrowOf, jgt]
  · norm_num [arrowOf, jgt]
  · norm_num [arrowOf, jgt]

/-- C7: a comparison row for a scenario present on only one side — a
candidate with no baseline entry in the index-join comparator, or a name
with only one variant grouped in the by-name comparator — has the other
side absent, no diffPercent, and `regressed = false`; rows of candidates
beyond an empty baseline never set the verdict, and inserting a one-sided
entry anywhere in the grouped comparison leaves the overall regression
verdict unchanged. -/
theorem c7_one_sided_rows :
    (∀ (perfChange : JsNum) (pr : RawResult),
        (mkRow perfChange pr none).devFPS = none
        ∧ (mkRow perfChange pr none).diff = none
        ∧ (mkRow perfChange pr none).regression = false)
    ∧ (∀ (perfChange : JsNum) (name : String)
          (devFPS localFPS : Option JsNum),
        devFPS = none ∨ localFPS = none →
        (mkGroupedRow perfChange name devFPS localFPS).diff = none
        ∧ (mkGroupedRow perfChange name devFPS localFPS).regression = false)
    ∧ (∀ (perfChange : JsNum) (prs : List RawResult),
        regressionDetected (buildTableRows perfChange prs []) = false)
    ∧ (∀ (perfChange : JsNum)
          (pre post : List (String × Option JsNum × Option JsNum))
          (name : String) (devFPS localFPS : Option JsNum),
        devFPS = none ∨ localFPS = none →
        ((groupedRows perfChange
            (pre ++ (name, devFPS, localFPS) :: post)).any fun r =>
              r.regression)
          = (groupedRows perfChange (pre ++ post)).any fun r =>
              r.regression) := by
  have hside : ∀ (perfChange : JsNum) (name : String)
      (devFPS localFPS : Option JsNum),
      devFPS = none ∨ localFPS = none →
      (mkGroupedRow perfChange name devFPS localFPS).diff = none
      ∧ (mkGroupedRow perfChange name devFPS localFPS).regression = false := by
    intro perfChange name devFPS localFPS h
    cases h with
    | inl h => subst h; cases localFPS <;> exact ⟨rfl, rfl⟩
    | inr h => subst h; cases devFPS <;> exact ⟨rfl, rfl⟩
  refine ⟨fun perfChange pr => ⟨rfl, rfl, rfl⟩, hside, ?_, ?_⟩
  · intro perfChange prs
    induction prs with
    | nil => rfl
    | cons pr prs ih =>
        simpa [buildTableRows, regressionDetected, mkRow] using ih
  · intro perfChange pre post name devFPS localFPS h
    have hreg := (hside perfChange name devFPS localFPS h).2
    simp [groupedRows, List.map_append, List.any_append, hreg]

/-- Witness for C7: a grouped entry with no dev-side result yields a row
with no diffPercent and no regression. -/
theorem c7_witness :
    (mkGroupedRow (JsNum.num 5) "sprite" none
        (some (JsNum.num 60))).diff = none
    ∧ (mkGroupedRow (JsNum.num 5) "sprite" none
        (some (JsNum.num 60))).regression = false :=
  c7_one_sided_rows.2.1 (JsNum.num 5) "sprite" none (some (JsNum.num 60))
    (Or.inl rfl)

/-- C8: a payload without a numeric fps converts to NaN under
`Number(...)`, and a comparison row built from such a payload (on either
side) completes with a NaN diffPercent and `regressed = false` — the
comparator treats the row as incomparable instead of crashing (the row
constructor is a total function). -/
theorem c8_missing_fps_incomparable :
    toNum none = JsNum.nan
    ∧ (∀ (perfChange : JsNum) (pr b : RawResult),
        pr.fps = none ∨ b.fps = none →
        (mkRow perfChange pr (some b)).diff = some JsNum.nan
        ∧ (mkRow perfChange pr (some b)).regression = false) := by
  refine ⟨rfl, ?_⟩
  intro perfChange pr b h
  have hnan : diffPercent (toNum b.fps) (toNum pr.fps) = JsNum.nan := by
    cases h with
    | inl h =>
        rw [diffPercent, h]
        simp [toNum, jsub_nan_right, jdiv_nan_left, jmul_nan_left]
    | inr h =>
        rw [diffPercent, h]
        simp [toNum, jsub_nan_left, jdiv_nan_left, jmul_nan_left]
  constructor
  · simp [mkRow, hnan]
  · simp [mkRow, hnan, jgt_nan_left]

/-- Witness for C8: a candidate payload with no fps field against a
baseline of 60 fps is not marked regressed. -/
theorem c8_witness :
    (mkRow (JsNum.num 5) ⟨"sprite", none⟩
        (some ⟨"sprite", some 60⟩)).regression = false :=
  (c8_missing_fps_incomparable.2 (JsNum.num 5) ⟨"sprite", none⟩
    ⟨"sprite", some 60⟩ (Or.inl rfl)).2

/-- C9 counterexample: the zero-regression round trip fails on two
in-scope inputs.  A scenario whose payload reports fps 0 self-compares to
`((0 - 0) / 0) * 100 = NaN`, not 0; and under a negative configured
threshold (the input is an unvalidated `Number(...)` of a string) a
self-comparison row with diffPercent exactly 0 satisfies `0 > threshold`,
is marked regressed, and the invocation fails with the regression
message. -/
theorem c9_counterexample :
    (mkRow (JsNum.num 5) ⟨"sprite", some 0⟩
        (some ⟨"sprite", some 0⟩)).diff = some JsNum.nan
    ∧ (mkRow (JsNum.num 5) ⟨"sprite", some 0⟩
        (some ⟨"sprite", some 0⟩)).diff ≠ some (JsNum.num 0)
    ∧ regressionDetected (buildTableRows (JsNum.num (-1))
        [⟨"sprite", some 60⟩] [⟨"sprite", some 60⟩]) = true
    ∧ finishRun (regressionDetected (buildTableRows (JsNum.num (-1))
        [⟨"sprite", some 60⟩] [⟨"sprite", some 60⟩])) true (Except.ok ())
      = Outcome.failed "Performance regression detected" := by
  have h1 : (mkRow (JsNum.num 5) ⟨"sprite", some 0⟩
      (some ⟨"sprite", some 0⟩)).diff = some JsNum.nan := by
    norm_num [mkRow, toNum, diffPercent, jsub, jdiv, jmul]
  have h3 : regressionDetected (buildTableRows (JsNum.num (-1))
      [⟨"sprite", some 60⟩] [⟨"sprite", some 60⟩]) = true := by
    norm_num [buildTableRows, regressionDetected, mkRow, toNum, diffPercent,
      jsub, jdiv, jmul, jgt]
  refine ⟨h1, ?_, h3, ?_⟩
  · rw [h1]
    simp
  · rw [h3]
    rfl

/-- C9 amended: comparing a result set against itself yields a diffPercent
of exactly 0 and no regression on every row, an overall verdict of no
regression, and a successful invocation outcome, provided every payload
carries a nonzero numeric fps and the configured threshold is not below
zero; a payload with fps 0 self-compares to a NaN diffPercent (still not
regressed), and a negative threshold marks diff-0 rows regressed. -/
theorem c9_self_comparison :
    ∀ (perfChange : JsNum) (prs : List RawResult),
      (∀ r ∈ prs, ∃ q : ℚ, r.fps = some q ∧ q ≠ 0) →
      jgt (JsNum.num 0) perfChange = false →
      (∀ row ∈ buildTableRows perfChange prs prs,
          row.diff = some (JsNum.num 0) ∧ row.regression = false)
      ∧ regressionDetected (buildTableRows perfChange prs prs) = false
      ∧ finishRun (regressionDetected (buildTableRows perfChange prs prs))
          true (Except.ok ()) = Outcome.success := by
  intro perfChange prs hfps hthresh
  have hrowFact : ∀ r : RawResult, (∃ q : ℚ, r.fps = some q ∧ q ≠ 0) →
      (mkRow perfChange r (some r)).diff = some (JsNum.num 0)
      ∧ (mkRow perfChange r (some r)).regression = false := by
    rintro r ⟨q, hq, hq0⟩
    have hd : diffPercent (toNum r.fps) (toNum r.fps) = JsNum.num 0 := by
      rw [hq]
      simp [toNum, diffPercent, jsub, jdiv, jmul, hq0]
    constructor
    · simp [mkRow, hd]
    · show jgt (diffPercent (toNum r.fps) (toNum r.fps)) perfChange = false
      rw [hd]
      exact hthresh
  have hrows : ∀ prs' : List RawResult,
      (∀ r ∈ prs', ∃ q : ℚ, r.fps = some q ∧ q ≠ 0) →
      ∀ row ∈ buildTableRows perfChange prs' prs',
        row.diff = some (JsNum.num 0) ∧ row.regression = false := by
    intro prs'
    induction prs' with
    | nil =>
        intro _ row hrow
        simp [buildTableRows] at hrow
    | cons r rs ih =>
        intro hall row hrow
        simp only [buildTableRows, List.mem_cons] at hrow
        cases hrow with
        | inl h =>
            subst h
            exact hrowFact r (hall r (by simp))
        | inr h =>
            exact ih (fun x hx => hall x (by simp [hx])) row h
  have hdet : regressionDetected (buildTableRows perfChange prs prs)
      = false := by
    rw [regressionDetected, List.any_eq_false]
    intro row hrow
    simp [(hrows prs hfps row hrow).2]
  exact ⟨hrows prs hfps, hdet, by simp [hdet, finishRun]⟩

/-- Witness for C9: a one-scenario result set of 60 fps compared against
itself, with threshold 5, detects no regression and the invocation
succeeds. -/
theorem c9_witness :
    regressionDetected (buildTableRows (JsNum.num 5)
        [⟨"sprite", some 60⟩] [⟨"sprite", some 60⟩]) = false
    ∧ finishRun (regressionDetected (buildTableRows (JsNum.num 5)
        [⟨"sprite", some 60⟩] [⟨"sprite", some 60⟩])) true (Except.ok ())
      = Outcome.success := by
  have h := c9_self_comparison (JsNum.num 5) [⟨"sprite", some 60⟩]
    (by
      intro r hr
      simp only [List.mem_singleton] at hr
      subst hr
      exact ⟨60, rfl, by norm_num⟩)
    (by norm_num [jgt])
  exact ⟨h.2.1, h.2.2⟩

/-- C10: a non-numeric threshold input converts with `Number(...)` to NaN
with no validation and no error; every comparison `diffPercent > NaN` is
false, so no row of either comparator is ever marked regressed and the
invocation reaches a successful outcome regardless of the measured FPS
values — an invalid threshold silently disables regression detection. -/
theorem c10_nan_threshold_disables_detection :
    toNum none = JsNum.nan
    ∧ (∀ d : JsNum, jgt d JsNum.nan = false)
    ∧ (∀ (pr : RawResult) (b : Option RawResult),
        (mkRow JsNum.nan pr b).regression = false)
    ∧ (∀ devAvg localAvg : JsNum,
        scaledRegression JsNum.nan devAvg localAvg = false)
    ∧ (∀ prs bs : List RawResult,
        regressionDetected (buildTableRows JsNum.nan prs bs) = false
        ∧ finishRun (regressionDetected (buildTableRows JsNum.nan prs bs))
            true (Except.ok ()) = Outcome.success) := by
  have hmk : ∀ (pr : RawResult) (b : Option RawResult),
      (mkRow JsNum.nan pr b).regression = false := by
    intro pr b
    cases b with
    | none => rfl
    | some b =>
        show jgt (diffPercent (toNum b.fps) (toNum pr.fps)) JsNum.nan = false
        exact jgt_nan_right _
  have hdet : ∀ prs bs : List RawResult,
      regressionDetected (buildTableRows JsNum.nan prs bs) = false := by
    intro prs
    induction prs with
    | nil => intro bs; rfl
    | cons pr prs ih =>
        intro bs
        cases bs with
        | nil =>
            simpa [buildTableRows, regressionDetected, hmk] using ih []
        | cons b bs =>
            simpa [buildTableRows, regressionDetected, hmk] using ih bs
  refine ⟨rfl, jgt_nan_right, hmk, ?_, ?_⟩
  · intro devAvg localAvg
    simp [scaledRegression, allowedPercent, jmul_nan_left, jgt_nan_right]
  · intro prs bs
    exact ⟨hdet prs bs, by simp [hdet prs bs, finishRun]⟩

end Bench
